import Mathlib

/-!
Verification of the socket utilities in `src/util/socket.c` of n-dhcp4:
`socket_SIOCGIFNAME` (resolve an interface index to an interface name) and
`socket_bind_if` (bind a socket to a network interface).

The two C functions are shallowly embedded as Lean functions parameterised
by a kernel behaviour (an oracle giving, for each kernel request, either a
positive `errno` value or the kernel's reply).  Each embedded function also
returns the list of kernel calls it issued, so that claims about which
kernel mechanisms are attempted, and in which order, can be stated.

Note that the `SO_BINDTOIF` branch of `socket_bind_if` is compiled out in
the source (`#if 0`), so the compiled program contains no index-based
binding attempt; the embedding follows the preprocessed source.
-/

set_option autoImplicit false

namespace NDhcp4

/-- `IFNAMSIZ` from `<net/if.h>`: the size of an interface-name buffer,
including the zero terminator. -/
def IFNAMSIZ : Nat := 16

/-- A kernel behaviour: for each kernel request made by the socket
utilities, either a positive `errno` value (`Except.error`) or the
kernel's reply (`Except.ok`).  `gifname socket ifindex` models the
`SIOCGIFNAME` ioctl and on success yields the bytes the kernel wrote into
the `ifr_name` field of the `ifreq`; `bindtodevice socket buf optlen`
models `setsockopt(socket, SOL_SOCKET, SO_BINDTODEVICE, buf, optlen)`. -/
structure KBehavior where
  gifname : Nat → Nat → Except Nat (List Nat)
  bindtodevice : Nat → List Nat → Nat → Except Nat Unit

/-- A kernel call issued by the socket utilities, as recorded in a trace.
`setsockoptSO_BINDTOIF` is the index-based binding mechanism mentioned in
the disabled (`#if 0`) branch of the source; it is a possible call kind
but the compiled code never issues it. -/
inductive KCall where
  | ioctlSIOCGIFNAME (socket ifindex : Nat)
  | setsockoptSO_BINDTODEVICE (socket : Nat) (buf : List Nat) (optlen : Nat)
  | setsockoptSO_BINDTOIF (socket : Nat) (ifindex : Int)
deriving DecidableEq, Repr

/-- Whether a kernel call is the index-based binding attempt. -/
def KCall.isBindToIf : KCall → Bool
  | KCall.setsockoptSO_BINDTOIF _ _ => true
  | _ => false

/-- Whether a kernel call is the `SIOCGIFNAME` resolution ioctl. -/
def KCall.isResolve : KCall → Bool
  | KCall.ioctlSIOCGIFNAME _ _ => true
  | _ => false

/-- Whether a kernel call is the name-based binding `setsockopt`. -/
def KCall.isBindToDevice : KCall → Bool
  | KCall.setsockoptSO_BINDTODEVICE _ _ _ => true
  | _ => false

/-- `memcpy(dst, src, n)` on byte buffers modelled as lists: the first `n`
bytes of the destination are replaced by the first `n` bytes of the
source. -/
def memcpy (dst src : List Nat) (n : Nat) : List Nat :=
  src.take n ++ dst.drop n

/-- `strlen` on a byte buffer: the number of bytes before the first zero
byte (the whole length if the buffer holds no zero byte). -/
def cstrlen : List Nat → Nat
  | [] => 0
  | b :: rest => if b = 0 then 0 else cstrlen rest + 1

/-- The result of running a C function that may fail an `assert`. -/
inductive CResult where
  | assertFailure
  | ret (v : Int)
deriving DecidableEq, Repr

/-- Embedding of `socket_SIOCGIFNAME` from `src/util/socket.c`.  It issues
the `SIOCGIFNAME` ioctl; on failure it returns `-errno` with the caller's
buffer `ifnamep` untouched; on success it returns `0` after
`memcpy(ifnamep, req.ifr_name, IFNAMSIZ)` — an unconditional copy of
`IFNAMSIZ` bytes with no termination check, trusting the documented kernel
guarantee.  The result is the return value, the caller's buffer after the
call, and the kernel-call trace. -/
def socket_SIOCGIFNAME (k : KBehavior) (socket ifindex : Nat)
    (ifnamep : List Nat) : Int × List Nat × List KCall :=
  match k.gifname socket ifindex with
  | Except.error e =>
      (-(e : Int), ifnamep, [KCall.ioctlSIOCGIFNAME socket ifindex])
  | Except.ok reply =>
      (0, memcpy ifnamep reply IFNAMSIZ,
        [KCall.ioctlSIOCGIFNAME socket ifindex])

/-- Embedding of `socket_bind_if` from `src/util/socket.c`.  After
`assert(ifindex >= 0)`, and with the `SO_BINDTOIF` branch compiled out
(`#if 0` in the source), the function resolves the index to a name when
`ifindex > 0` (returning the resolution error `r` when `r` is nonzero),
and then applies `setsockopt(socket, SOL_SOCKET, SO_BINDTODEVICE, ifname,
strlen(ifname))` on the resolved name, or on the zero-initialised (empty)
name when `ifindex == 0`. -/
def socket_bind_if (k : KBehavior) (socket : Nat) (ifindex : Int) :
    CResult × List KCall :=
  if ifindex < 0 then
    (CResult.assertFailure, [])
  else
    let resolved : Int × List Nat × List KCall :=
      if 0 < ifindex then
        socket_SIOCGIFNAME k socket ifindex.toNat (List.replicate IFNAMSIZ 0)
      else
        (0, List.replicate IFNAMSIZ 0, [])
    let r := resolved.1
    let ifname := resolved.2.1
    let tr := resolved.2.2
    if r ≠ 0 then
      (CResult.ret r, tr)
    else
      let call := KCall.setsockoptSO_BINDTODEVICE socket ifname (cstrlen ifname)
      match k.bindtodevice socket ifname (cstrlen ifname) with
      | Except.error e => (CResult.ret (-(e : Int)), tr ++ [call])
      | Except.ok _ => (CResult.ret 0, tr ++ [call])

/-- A kernel behaviour reports its errors POSIX-style: `errno` is a
strictly positive value on every failure. -/
def KBehavior.errnosPos (k : KBehavior) : Prop :=
  (∀ s i e, k.gifname s i = Except.error e → 0 < e) ∧
  (∀ s b l e, k.bindtodevice s b l = Except.error e → 0 < e)

/-- The documented kernel contract for a `SIOCGIFNAME` reply belonging to
an existing interface: the `ifr_name` field is `IFNAMSIZ` bytes, the name
is zero-terminated within it, and the name is non-empty. -/
def ValidReply (reply : List Nat) : Prop :=
  reply.length = IFNAMSIZ ∧ reply.contains 0 ∧ reply.head? ≠ some 0

/-- A concrete interface name reply: "lo" padded with zero bytes to
`IFNAMSIZ` bytes. -/
def nm0 : List Nat := [108, 111] ++ List.replicate 14 0

/-- A concrete kernel behaviour on which every request succeeds and every
resolution yields `nm0`. -/
def kb0 : KBehavior where
  gifname := fun _ _ => Except.ok nm0
  bindtodevice := fun _ _ _ => Except.ok ()

/-- A concrete kernel behaviour on which resolution fails with
`errno = 19` (`ENODEV`). -/
def kbErr : KBehavior where
  gifname := fun _ _ => Except.error 19
  bindtodevice := fun _ _ _ => Except.ok ()

/-- A concrete adversarial kernel behaviour whose `SIOCGIFNAME` reply is
`IFNAMSIZ` nonzero bytes: not zero-terminated within the buffer. -/
def kbNoNul : KBehavior where
  gifname := fun _ _ => Except.ok (List.replicate IFNAMSIZ 1)
  bindtodevice := fun _ _ _ => Except.ok ()

/-!
A model of the kernel-side binding state, used for the idempotence and
clearing claims.  The state semantics of `SO_BINDTODEVICE` is external
kernel behaviour, not code of this repository.
-/

/-- Modelled from the spec: a network namespace, "kernel-level isolation
domain with its own set of interfaces and indices", reduced to the
interface table the socket utilities consult: for each index, the
`ifr_name` reply (an `IFNAMSIZ`-byte field) of the interface at that
index, or `none` when no interface has that index. -/
structure NetNS where
  ifnames : Nat → Option (List Nat)

/-- Modelled from the spec: the kernel-side binding configuration of one
socket, "kernel-side socket configuration restricting which interface's
traffic the socket sends/receives".  `bound_dev` holds the device name the
socket is bound to; the empty list means unbound. -/
structure SockState where
  bound_dev : List Nat
deriving DecidableEq, Repr

/-- Modelled from the spec: "the same unbound state as a freshly created
socket" — a fresh socket has no device binding. -/
def SockState.fresh : SockState := ⟨[]⟩

/-- Modelled from the spec: the kernel-side effect of a successful
`SO_BINDTODEVICE` `setsockopt`: the kernel reads `optlen` bytes of the
name and stores them as the socket's device binding; an empty name "the
kernel interprets as clear binding". -/
def applySO_BINDTODEVICE (s : SockState) (buf : List Nat) (optlen : Nat) :
    SockState :=
  ⟨buf.take optlen⟩

/-- Modelled from the spec: the kernel-side effect of one recorded kernel
call on a socket's binding state.  The `SIOCGIFNAME` ioctl is read-only;
only the binding `setsockopt` calls mutate the binding state. -/
def KCall.applyToState (s : SockState) : KCall → SockState
  | KCall.setsockoptSO_BINDTODEVICE _ buf optlen =>
      applySO_BINDTODEVICE s buf optlen
  | _ => s

/-- The kernel behaviour presented by a namespace `ns` whose interface
table is stable during the call: resolution succeeds exactly on indices
present in the table (failing with `ENODEV = 19` otherwise) and the
binding `setsockopt` succeeds. -/
def nsBehavior (ns : NetNS) : KBehavior where
  gifname := fun _ i =>
    match ns.ifnames i with
    | some nm => Except.ok nm
    | none => Except.error 19
  bindtodevice := fun _ _ _ => Except.ok ()

/-- `socket_bind_if` run against the namespace model: the result together
with the socket's kernel-side binding state after the call, obtained by
folding the kernel-side effect of each issued call over the initial
state. -/
def socket_bind_if_st (ns : NetNS) (st : SockState) (socket : Nat)
    (ifindex : Int) : CResult × SockState :=
  let out := socket_bind_if (nsBehavior ns) socket ifindex
  (out.1, out.2.foldl KCall.applyToState st)

/-!
Helper lemmas: properties of `cstrlen` and `memcpy`, and one equation for
`socket_bind_if` per branch of its control flow.
-/

theorem cstrlen_le_length (l : List Nat) : cstrlen l ≤ l.length := by
  induction l with
  | nil => simp [cstrlen]
  | cons b rest ih =>
    by_cases hb : b = 0 <;> simp [cstrlen, hb] <;> omega

theorem cstrlen_lt_length (l : List Nat) (h : (0 : Nat) ∈ l) :
    cstrlen l < l.length := by
  induction l with
  | nil => cases h
  | cons b rest ih =>
    by_cases hb : b = 0
    · simp [cstrlen, hb]
    · rcases List.mem_cons.mp h with h0 | h0
      · exact absurd h0.symm hb
      · have := ih h0
        simp only [cstrlen, hb, if_false, List.length_cons]
        omega

theorem cstrlen_pos (l : List Nat) (hh : l.head? ≠ some 0) (hne : l ≠ []) :
    0 < cstrlen l := by
  cases l with
  | nil => exact absurd rfl hne
  | cons b rest =>
    have hb : b ≠ 0 := fun h => hh (by simp [h])
    simp [cstrlen, hb]

theorem cstrlen_replicate_zero (n : Nat) :
    cstrlen (List.replicate n 0) = 0 := by
  cases n <;> simp [cstrlen]

theorem memcpy_eq_take (dst src : List Nat) (n : Nat)
    (h : dst.length ≤ n) : memcpy dst src n = src.take n := by
  simp [memcpy, List.drop_eq_nil_of_le h]

theorem socket_bind_if_of_neg (k : KBehavior) (s : Nat) {i : Int}
    (h : i < 0) : socket_bind_if k s i = (CResult.assertFailure, []) := by
  simp [socket_bind_if, h]

theorem socket_bind_if_zero_eq (k : KBehavior) (s : Nat) :
    socket_bind_if k s 0 =
      ((match k.bindtodevice s (List.replicate IFNAMSIZ 0) 0 with
        | Except.error e => CResult.ret (-(e : Int))
        | Except.ok _ => CResult.ret 0),
       [KCall.setsockoptSO_BINDTODEVICE s (List.replicate IFNAMSIZ 0) 0]) := by
  cases hb : k.bindtodevice s (List.replicate IFNAMSIZ 0) 0 <;>
    simp [socket_bind_if, cstrlen_replicate_zero, hb]

theorem socket_bind_if_pos_ok_eq (k : KBehavior) (s : Nat) {i : Int}
    {reply : List Nat} (hi : 0 < i)
    (hg : k.gifname s i.toNat = Except.ok reply) :
    socket_bind_if k s i =
      ((match k.bindtodevice s (reply.take IFNAMSIZ)
            (cstrlen (reply.take IFNAMSIZ)) with
        | Except.error e => CResult.ret (-(e : Int))
        | Except.ok _ => CResult.ret 0),
       [KCall.ioctlSIOCGIFNAME s i.toNat,
        KCall.setsockoptSO_BINDTODEVICE s (reply.take IFNAMSIZ)
          (cstrlen (reply.take IFNAMSIZ))]) := by
  have hmem : memcpy (List.replicate IFNAMSIZ 0) reply IFNAMSIZ =
      reply.take IFNAMSIZ := memcpy_eq_take _ _ _ (by simp)
  have hneg : ¬ i < 0 := by omega
  cases hb : k.bindtodevice s (reply.take IFNAMSIZ)
      (cstrlen (reply.take IFNAMSIZ)) <;>
    simp [socket_bind_if, socket_SIOCGIFNAME, hneg, hi, hg, hmem, hb]

theorem socket_bind_if_pos_err_eq (k : KBehavior) (s : Nat) {i : Int}
    {e : Nat} (hi : 0 < i) (he : e ≠ 0)
    (hg : k.gifname s i.toNat = Except.error e) :
    socket_bind_if k s i =
      (CResult.ret (-(e : Int)), [KCall.ioctlSIOCGIFNAME s i.toNat]) := by
  have hneg : ¬ i < 0 := by omega
  have hr : ¬ (-(e : Int)) = 0 := by
    simp only [neg_eq_zero]
    exact_mod_cast he
  simp [socket_bind_if, socket_SIOCGIFNAME, hneg, hi, hg, hr]

theorem socket_bind_if_pos_err0_eq (k : KBehavior) (s : Nat) {i : Int}
    (hi : 0 < i) (hg : k.gifname s i.toNat = Except.error 0) :
    socket_bind_if k s i =
      ((match k.bindtodevice s (List.replicate IFNAMSIZ 0) 0 with
        | Except.error e => CResult.ret (-(e : Int))
        | Except.ok _ => CResult.ret 0),
       [KCall.ioctlSIOCGIFNAME s i.toNat,
        KCall.setsockoptSO_BINDTODEVICE s (List.replicate IFNAMSIZ 0) 0]) := by
  have hneg : ¬ i < 0 := by omega
  cases hb : k.bindtodevice s (List.replicate IFNAMSIZ 0) 0 <;>
    simp [socket_bind_if, socket_SIOCGIFNAME, hneg, hi, hg, hb,
      cstrlen_replicate_zero]

theorem socket_bind_if_st_zero (ns : NetNS) (st : SockState) (s : Nat) :
    (socket_bind_if_st ns st s 0).2 = SockState.fresh := by
  simp [socket_bind_if_st, socket_bind_if_zero_eq, KCall.applyToState,
    applySO_BINDTODEVICE, SockState.fresh]

theorem kb0_errnosPos : kb0.errnosPos := by
  refine ⟨fun s i e h => ?_, fun s b l e h => ?_⟩ <;> simp [kb0] at h

theorem kbErr_errnosPos : kbErr.errnosPos := by
  refine ⟨fun s i e h => ?_, fun s b l e h => ?_⟩ <;>
    simp [kbErr] at h <;> omega

/-!
The claims.
-/

/-- C1, the claim as stated, is false on the compiled code: with a kernel
behaviour on which every request succeeds, `socket_bind_if 3 2` issues
kernel calls, yet none of them — in particular not the first — is the
index-based socket option call, because the `SO_BINDTOIF` branch is
compiled out (`#if 0`). -/
theorem C1_counterexample :
    (socket_bind_if kb0 3 2).2 ≠ [] ∧
    (socket_bind_if kb0 3 2).2.any KCall.isBindToIf = false := by decide

/-- C1 (amended): the index-based strategy is compiled out (`#if 0`), so
for every kernel behaviour, socket and ifindex, `socket_bind_if` never
issues an index-based socket option call; binding proceeds solely via the
name-based strategy, and every successful call includes a name-based
socket option call. -/
theorem C1_name_based_only (k : KBehavior) (s : Nat) (i : Int) :
    ((socket_bind_if k s i).2.any KCall.isBindToIf = false) ∧
    ((socket_bind_if k s i).1 = CResult.ret 0 →
      (socket_bind_if k s i).2.any KCall.isBindToDevice = true) := by
  by_cases hneg : i < 0
  · rw [socket_bind_if_of_neg k s hneg]
    simp
  · by_cases hi : 0 < i
    · cases hg : k.gifname s i.toNat with
      | ok reply =>
        rw [socket_bind_if_pos_ok_eq k s hi hg]
        cases hb : k.bindtodevice s (reply.take IFNAMSIZ)
            (cstrlen (reply.take IFNAMSIZ)) <;>
          simp [hb, KCall.isBindToIf, KCall.isBindToDevice]
      | error e =>
        by_cases he : e = 0
        · subst he
          rw [socket_bind_if_pos_err0_eq k s hi hg]
          cases hb : k.bindtodevice s (List.replicate IFNAMSIZ 0) 0 <;>
            simp [hb, KCall.isBindToIf, KCall.isBindToDevice]
        · rw [socket_bind_if_pos_err_eq k s hi he hg]
          refine ⟨by simp [KCall.isBindToIf], fun h => ?_⟩
          simp only [CResult.ret.injEq, neg_eq_zero] at h
          exact absurd (by exact_mod_cast h) he
    · have hz : i = 0 := by omega
      subst hz
      rw [socket_bind_if_zero_eq]
      cases hb : k.bindtodevice s (List.replicate IFNAMSIZ 0) 0 <;>
        simp [hb, KCall.isBindToIf, KCall.isBindToDevice]

/-- C1 witness: at a concrete kernel behaviour, socket and index, the
successful call includes a name-based socket option call and no
index-based one. -/
theorem C1_witness :
    ((socket_bind_if kb0 3 2).2.any KCall.isBindToIf = false) ∧
    (socket_bind_if kb0 3 2).2.any KCall.isBindToDevice = true :=
  ⟨(C1_name_based_only kb0 3 2).1,
    (C1_name_based_only kb0 3 2).2 (by decide)⟩

/-- C2, the claim as stated, is false on the code: for a kernel reply of
`IFNAMSIZ` nonzero bytes (no terminator within the buffer), the resolver
reports success and the value stored into the caller's buffer is not
zero-terminated — no explicit termination check or truncation happens. -/
theorem C2_counterexample :
    (socket_SIOCGIFNAME kbNoNul 3 2 (List.replicate IFNAMSIZ 0)).1 = 0 ∧
    ¬ ((0 : Nat) ∈
        (socket_SIOCGIFNAME kbNoNul 3 2 (List.replicate IFNAMSIZ 0)).2.1) := by
  decide

/-- C2 (amended): the resolver performs no explicit termination check:
after a successful kernel request it copies exactly `IFNAMSIZ` bytes of
the kernel reply into the caller's buffer, trusting the documented kernel
guarantee, so the stored value is zero-terminated if and only if the
kernel reply holds a zero within its first `IFNAMSIZ` bytes. -/
theorem C2_no_termination_check (k : KBehavior) (s i : Nat)
    (buf reply : List Nat) (hbuf : buf.length = IFNAMSIZ)
    (hg : k.gifname s i = Except.ok reply) :
    (socket_SIOCGIFNAME k s i buf).1 = 0 ∧
    (socket_SIOCGIFNAME k s i buf).2.1 = reply.take IFNAMSIZ ∧
    ((0 : Nat) ∈ (socket_SIOCGIFNAME k s i buf).2.1 ↔
      (0 : Nat) ∈ reply.take IFNAMSIZ) := by
  simp [socket_SIOCGIFNAME, hg, memcpy_eq_take _ _ _ (le_of_eq hbuf)]

/-- C2 witness: at a concrete kernel behaviour the resolver stores
exactly the first `IFNAMSIZ` bytes of the reply. -/
theorem C2_witness :
    (socket_SIOCGIFNAME kb0 3 2 (List.replicate IFNAMSIZ 0)).2.1 =
      nm0.take IFNAMSIZ :=
  (C2_no_termination_check kb0 3 2 (List.replicate IFNAMSIZ 0) nm0
    (by decide) rfl).2.1

/-- C3: with `ifindex == 0` the binder never invokes the resolver and
issues exactly one kernel call, the name-based socket option with the
zero-initialised (empty) name of length `0`; in the namespace model this
leaves the socket in the unbound (fresh) state, clearing any existing
binding; and for every ifindex, a resolution ioctl occurs in the trace
only when a strictly positive index was requested. -/
theorem C3_zero_clears_without_resolver (k : KBehavior) (ns : NetNS)
    (st : SockState) (s : Nat) (i : Int) :
    ((socket_bind_if k s 0).2 =
      [KCall.setsockoptSO_BINDTODEVICE s (List.replicate IFNAMSIZ 0) 0]) ∧
    ((socket_bind_if_st ns st s 0).2 = SockState.fresh) ∧
    (∀ c ∈ (socket_bind_if k s i).2, c.isResolve = true → 0 < i) := by
  refine ⟨by rw [socket_bind_if_zero_eq], socket_bind_if_st_zero ns st s, ?_⟩
  intro c hc hres
  by_contra hnot
  by_cases hneg : i < 0
  · rw [socket_bind_if_of_neg k s hneg] at hc
    simp at hc
  · have hz : i = 0 := by omega
    subst hz
    rw [socket_bind_if_zero_eq] at hc
    simp only [List.mem_singleton] at hc
    subst hc
    simp [KCall.isResolve] at hres

/-- C3 witness: concrete instances of the three conjuncts. -/
theorem C3_witness :
    ((socket_bind_if kb0 3 0).2 =
      [KCall.setsockoptSO_BINDTODEVICE 3 (List.replicate IFNAMSIZ 0) 0]) ∧
    (0 : Int) < 2 :=
  ⟨(C3_zero_clears_without_resolver kb0 ⟨fun _ => some nm0⟩
      SockState.fresh 3 2).1,
    (C3_zero_clears_without_resolver kb0 ⟨fun _ => some nm0⟩
      SockState.fresh 3 2).2.2 (KCall.ioctlSIOCGIFNAME 3 2) (by decide)
      (by decide)⟩

/-- C4: with `ifindex > 0`, when the kernel fails the resolution ioctl
with a (POSIX-positive) errno `e`, `socket_bind_if` returns the resolution
error `-e` — exactly the value `socket_SIOCGIFNAME` returns there — and
its trace holds only the resolution ioctl: the binding socket option is
never attempted. -/
theorem C4_resolution_error_propagates (k : KBehavior) (s : Nat) (i : Int)
    (e : Nat) (hi : 0 < i) (he : 0 < e)
    (hg : k.gifname s i.toNat = Except.error e) :
    socket_bind_if k s i =
      (CResult.ret (-(e : Int)), [KCall.ioctlSIOCGIFNAME s i.toNat]) ∧
    (socket_SIOCGIFNAME k s i.toNat (List.replicate IFNAMSIZ 0)).1 =
      -(e : Int) ∧
    (socket_bind_if k s i).2.any KCall.isBindToDevice = false := by
  have he' : e ≠ 0 := by omega
  refine ⟨socket_bind_if_pos_err_eq k s hi he' hg, ?_, ?_⟩
  · simp [socket_SIOCGIFNAME, hg]
  · rw [socket_bind_if_pos_err_eq k s hi he' hg]
    simp [KCall.isBindToDevice]

/-- C4 witness: a concrete kernel behaviour failing resolution with
`ENODEV = 19` at socket `3`, index `2`. -/
theorem C4_witness :
    socket_bind_if kbErr 3 2 =
      (CResult.ret (-19), [KCall.ioctlSIOCGIFNAME 3 2]) :=
  (C4_resolution_error_propagates kbErr 3 2 19 (by decide) (by decide)
    rfl).1

/-- C5: a negative ifindex fails the `assert(ifindex >= 0)` before any
kernel call is made (the trace is empty), and for every nonnegative
ifindex the assertion passes: the run never ends in an assertion
failure. -/
theorem C5_assert_on_negative_index (k : KBehavior) (s : Nat) (i : Int) :
    (i < 0 → socket_bind_if k s i = (CResult.assertFailure, [])) ∧
    (0 ≤ i → (socket_bind_if k s i).1 ≠ CResult.assertFailure) := by
  refine ⟨fun h => socket_bind_if_of_neg k s h, fun h0 => ?_⟩
  by_cases hi : 0 < i
  · cases hg : k.gifname s i.toNat with
    | ok reply =>
      rw [socket_bind_if_pos_ok_eq k s hi hg]
      cases hb : k.bindtodevice s (reply.take IFNAMSIZ)
          (cstrlen (reply.take IFNAMSIZ)) <;> simp [hb]
    | error e =>
      by_cases he : e = 0
      · subst he
        rw [socket_bind_if_pos_err0_eq k s hi hg]
        cases hb : k.bindtodevice s (List.replicate IFNAMSIZ 0) 0 <;>
          simp [hb]
      · rw [socket_bind_if_pos_err_eq k s hi he hg]
        simp
  · have hz : i = 0 := by omega
    subst hz
    rw [socket_bind_if_zero_eq]
    cases hb : k.bindtodevice s (List.replicate IFNAMSIZ 0) 0 <;> simp [hb]

/-- C5 witness: at `ifindex = -1` the assertion fails with no kernel
call; at `ifindex = 2` it passes. -/
theorem C5_witness :
    socket_bind_if kb0 3 (-1) = (CResult.assertFailure, []) ∧
    (socket_bind_if kb0 3 2).1 ≠ CResult.assertFailure :=
  ⟨(C5_assert_on_negative_index kb0 3 (-1)).1 (by decide),
    (C5_assert_on_negative_index kb0 3 2).2 (by decide)⟩

/-- C6: whenever the kernel replies to resolutions with names
zero-terminated within `IFNAMSIZ` bytes (the documented contract), every
name-based socket option call in a `socket_bind_if` trace carries as
`optlen` exactly `strlen` of the buffer it passes — the byte length up to
the first zero — which is strictly less than the `IFNAMSIZ` buffer size;
and with `ifindex = 0` that length is `0`. -/
theorem C6_exact_optlen (k : KBehavior) (s : Nat) (i : Int)
    (buf : List Nat) (len : Nat)
    (hk : ∀ s2 i2 reply, k.gifname s2 i2 = Except.ok reply →
      (0 : Nat) ∈ reply.take IFNAMSIZ)
    (hmem : KCall.setsockoptSO_BINDTODEVICE s buf len ∈
      (socket_bind_if k s i).2) :
    len = cstrlen buf ∧ len < IFNAMSIZ ∧ (i = 0 → len = 0) := by
  by_cases hneg : i < 0
  · rw [socket_bind_if_of_neg k s hneg] at hmem
    simp at hmem
  · by_cases hi : 0 < i
    · have hi0 : ¬ i = 0 := by omega
      cases hg : k.gifname s i.toNat with
      | ok reply =>
        rw [socket_bind_if_pos_ok_eq k s hi hg] at hmem
        simp only [List.mem_cons, List.mem_singleton] at hmem
        rcases hmem with hmem | hmem | hmem
        · cases hmem
        · obtain ⟨-, hbuf, hlen⟩ := KCall.setsockoptSO_BINDTODEVICE.inj hmem
          have hz := hk s i.toNat reply hg
          have h1 : cstrlen (reply.take IFNAMSIZ) <
              (reply.take IFNAMSIZ).length := cstrlen_lt_length _ hz
          have h2 : (reply.take IFNAMSIZ).length ≤ IFNAMSIZ := by
            simp [List.length_take]
          rw [hbuf, hlen]
          exact ⟨rfl, by omega, fun h => absurd h hi0⟩
        · cases hmem
      | error e =>
        by_cases he : e = 0
        · subst he
          rw [socket_bind_if_pos_err0_eq k s hi hg] at hmem
          simp only [List.mem_cons, List.mem_singleton] at hmem
          rcases hmem with hmem | hmem | hmem
          · cases hmem
          · obtain ⟨-, hbuf, hlen⟩ :=
              KCall.setsockoptSO_BINDTODEVICE.inj hmem
            refine ⟨by rw [hlen, hbuf, cstrlen_replicate_zero], ?_,
              fun _ => hlen⟩
            rw [hlen]
            decide
          · cases hmem
        · rw [socket_bind_if_pos_err_eq k s hi he hg] at hmem
          simp at hmem
    · have hz : i = 0 := by omega
      subst hz
      rw [socket_bind_if_zero_eq] at hmem
      simp only [List.mem_singleton] at hmem
      obtain ⟨-, hbuf, hlen⟩ := KCall.setsockoptSO_BINDTODEVICE.inj hmem
      refine ⟨by rw [hlen, hbuf, cstrlen_replicate_zero], ?_, fun _ => hlen⟩
      rw [hlen]
      decide

/-- C6 witness: on a concrete run the name-based call carries length
`2 = strlen "lo"`, strictly below the buffer size. -/
theorem C6_witness :
    (2 : Nat) = cstrlen nm0 ∧ 2 < IFNAMSIZ ∧ ((2 : Int) = 0 → 2 = 0) :=
  C6_exact_optlen kb0 3 2 nm0 2
    (fun s2 i2 reply hg => by
      simp only [kb0, Except.ok.injEq] at hg
      subst hg
      decide)
    (by decide)

/-- C7: with POSIX-positive errnos, each of the two operations returns
`0` exactly on kernel success and the negated raw errno (strictly
negative) on any kernel-reported failure: the resolver maps its ioctl
outcome this way, and the binder, on any nonnegative ifindex, returns `0`
when every kernel call it makes succeeds, the negated errno of the
resolution ioctl when that fails, and the negated errno of the binding
socket option call when that fails — no other return values occur, and no
kernel request is retried: each trace holds at most one resolution ioctl
and at most one binding socket option call. -/
theorem C7_error_code_discipline (k : KBehavior) (s i : Nat)
    (buf : List Nat) (ifx : Int) (hpos : k.errnosPos) (hx : 0 ≤ ifx) :
    ((∀ reply, k.gifname s i = Except.ok reply →
        (socket_SIOCGIFNAME k s i buf).1 = 0) ∧
      (∀ e, k.gifname s i = Except.error e →
        (socket_SIOCGIFNAME k s i buf).1 = -(e : Int) ∧
          (socket_SIOCGIFNAME k s i buf).1 < 0)) ∧
    (∀ e, 0 < ifx → k.gifname s ifx.toNat = Except.error e →
        (socket_bind_if k s ifx).1 = CResult.ret (-(e : Int)) ∧
          -(e : Int) < 0) ∧
    (∀ reply, 0 < ifx → k.gifname s ifx.toNat = Except.ok reply →
        ∀ u, k.bindtodevice s (reply.take IFNAMSIZ)
            (cstrlen (reply.take IFNAMSIZ)) = Except.ok u →
          (socket_bind_if k s ifx).1 = CResult.ret 0) ∧
    (∀ reply, 0 < ifx → k.gifname s ifx.toNat = Except.ok reply →
        ∀ e, k.bindtodevice s (reply.take IFNAMSIZ)
            (cstrlen (reply.take IFNAMSIZ)) = Except.error e →
          (socket_bind_if k s ifx).1 = CResult.ret (-(e : Int)) ∧
            -(e : Int) < 0) ∧
    (ifx = 0 → ∀ u, k.bindtodevice s (List.replicate IFNAMSIZ 0) 0 =
          Except.ok u → (socket_bind_if k s ifx).1 = CResult.ret 0) ∧
    (ifx = 0 → ∀ e, k.bindtodevice s (List.replicate IFNAMSIZ 0) 0 =
          Except.error e →
        (socket_bind_if k s ifx).1 = CResult.ret (-(e : Int)) ∧
          -(e : Int) < 0) ∧
    (∃ v : Int, (socket_bind_if k s ifx).1 = CResult.ret v ∧
        (v = 0 ∨ v < 0)) ∧
    (socket_bind_if k s ifx).2.countP (fun c => c.isResolve) ≤ 1 ∧
    (socket_bind_if k s ifx).2.countP (fun c => c.isBindToDevice) ≤ 1 := by
  refine ⟨⟨fun reply hg => by simp [socket_SIOCGIFNAME, hg],
    fun e hg => ?_⟩, ?_, ?_, ?_, ?_, ?_, ?_⟩
  · have he : 0 < e := hpos.1 s i e hg
    constructor
    · simp [socket_SIOCGIFNAME, hg]
    · simp only [socket_SIOCGIFNAME, hg]
      omega
  · intro e hi hg
    have he : 0 < e := hpos.1 s ifx.toNat e hg
    have he' : e ≠ 0 := by omega
    rw [socket_bind_if_pos_err_eq k s hi he' hg]
    exact ⟨rfl, by omega⟩
  · intro reply hi hg u hb
    rw [socket_bind_if_pos_ok_eq k s hi hg]
    simp [hb]
  · intro reply hi hg e hb
    have he : 0 < e := hpos.2 s _ _ e hb
    rw [socket_bind_if_pos_ok_eq k s hi hg]
    exact ⟨by simp [hb], by omega⟩
  · intro hz u hb
    subst hz
    rw [socket_bind_if_zero_eq]
    simp [hb]
  · intro hz e hb
    subst hz
    have he : 0 < e := hpos.2 s _ _ e hb
    rw [socket_bind_if_zero_eq]
    exact ⟨by simp [hb], by omega⟩
  · by_cases hi : 0 < ifx
    · cases hg : k.gifname s ifx.toNat with
      | ok reply =>
        rw [socket_bind_if_pos_ok_eq k s hi hg]
        cases hb : k.bindtodevice s (reply.take IFNAMSIZ)
            (cstrlen (reply.take IFNAMSIZ)) with
        | error e =>
          have he : 0 < e := hpos.2 s _ _ e hb
          refine ⟨⟨-(e : Int), by simp [hb], Or.inr (by omega)⟩, ?_, ?_⟩ <;>
            simp [List.countP_cons, List.countP_nil, KCall.isResolve,
              KCall.isBindToDevice, hb]
        | ok u =>
          refine ⟨⟨0, by simp [hb], Or.inl rfl⟩, ?_, ?_⟩ <;>
            simp [List.countP_cons, List.countP_nil, KCall.isResolve,
              KCall.isBindToDevice, hb]
      | error e =>
        have he : 0 < e := hpos.1 s ifx.toNat e hg
        have he' : e ≠ 0 := by omega
        rw [socket_bind_if_pos_err_eq k s hi he' hg]
        refine ⟨⟨-(e : Int), rfl, Or.inr (by omega)⟩, ?_, ?_⟩ <;>
          simp [List.countP_cons, List.countP_nil, KCall.isResolve,
            KCall.isBindToDevice]
    · have hz : ifx = 0 := by omega
      subst hz
      rw [socket_bind_if_zero_eq]
      cases hb : k.bindtodevice s (List.replicate IFNAMSIZ 0) 0 with
      | error e =>
        have he : 0 < e := hpos.2 s _ _ e hb
        refine ⟨⟨-(e : Int), by simp [hb], Or.inr (by omega)⟩, ?_, ?_⟩ <;>
          simp [List.countP_cons, List.countP_nil, KCall.isResolve,
            KCall.isBindToDevice, hb]
      | ok u =>
        refine ⟨⟨0, by simp [hb], Or.inl rfl⟩, ?_, ?_⟩ <;>
          simp [List.countP_cons, List.countP_nil, KCall.isResolve,
            KCall.isBindToDevice, hb]

/-- C7 witness: concrete runs of both operations, on success and on
failure, each returning exactly 0 or the negated raw errno. -/
theorem C7_witness :
    (socket_SIOCGIFNAME kb0 3 2 (List.replicate IFNAMSIZ 0)).1 = 0 ∧
    (socket_SIOCGIFNAME kbErr 3 2 (List.replicate IFNAMSIZ 0)).1 = -19 ∧
    (socket_bind_if kb0 3 2).1 = CResult.ret 0 ∧
    (socket_bind_if kbErr 3 2).1 = CResult.ret (-19) :=
  ⟨(C7_error_code_discipline kb0 3 2 (List.replicate IFNAMSIZ 0) 2
      kb0_errnosPos (by decide)).1.1 nm0 rfl,
    ((C7_error_code_discipline kbErr 3 2 (List.replicate IFNAMSIZ 0) 2
      kbErr_errnosPos (by decide)).1.2 19 rfl).1,
    (C7_error_code_discipline kb0 3 2 (List.replicate IFNAMSIZ 0) 2
      kb0_errnosPos (by decide)).2.2.1 nm0 (by decide) rfl () rfl,
    ((C7_error_code_discipline kbErr 3 2 (List.replicate IFNAMSIZ 0) 2
      kbErr_errnosPos (by decide)).2.1 19 (by decide) rfl).1⟩

/-- C8: when the resolution ioctl fails with a (POSIX-positive) errno,
the resolver returns the strictly negative negated errno and the caller's
name buffer is returned completely unmodified. -/
theorem C8_error_leaves_buffer_untouched (k : KBehavior) (s i : Nat)
    (buf : List Nat) (e : Nat) (hg : k.gifname s i = Except.error e)
    (he : 0 < e) :
    socket_SIOCGIFNAME k s i buf =
      (-(e : Int), buf, [KCall.ioctlSIOCGIFNAME s i]) ∧
    (socket_SIOCGIFNAME k s i buf).1 < 0 := by
  constructor
  · simp [socket_SIOCGIFNAME, hg]
  · simp only [socket_SIOCGIFNAME, hg]
    omega

/-- C8 witness: a concrete failing resolution leaves the buffer as it
was. -/
theorem C8_witness :
    socket_SIOCGIFNAME kbErr 3 2 (List.replicate IFNAMSIZ 0) =
      (-19, List.replicate IFNAMSIZ 0, [KCall.ioctlSIOCGIFNAME 3 2]) :=
  (C8_error_leaves_buffer_untouched kbErr 3 2 (List.replicate IFNAMSIZ 0)
    19 rfl (by decide)).1

/-- C9: on a successful resolution whose kernel reply obeys the
documented contract (an `IFNAMSIZ`-byte field, zero-terminated, holding a
non-empty name), the resolver returns `0` and stores into the caller's
buffer a zero-terminated name that is non-empty and of length at most
`IFNAMSIZ - 1`. -/
theorem C9_success_stores_valid_name (k : KBehavior) (s i : Nat)
    (buf reply : List Nat) (hbuf : buf.length = IFNAMSIZ)
    (hg : k.gifname s i = Except.ok reply) (hv : ValidReply reply) :
    (socket_SIOCGIFNAME k s i buf).1 = 0 ∧
    (socket_SIOCGIFNAME k s i buf).2.1 = reply ∧
    (0 : Nat) ∈ (socket_SIOCGIFNAME k s i buf).2.1 ∧
    0 < cstrlen (socket_SIOCGIFNAME k s i buf).2.1 ∧
    cstrlen (socket_SIOCGIFNAME k s i buf).2.1 ≤ IFNAMSIZ - 1 := by
  obtain ⟨hlen, hterm, hne⟩ := hv
  have hzm : (0 : Nat) ∈ reply := by
    simpa using hterm
  have hstored : (socket_SIOCGIFNAME k s i buf).2.1 = reply := by
    rw [show (socket_SIOCGIFNAME k s i buf).2.1 =
        memcpy buf reply IFNAMSIZ from by simp [socket_SIOCGIFNAME, hg],
      memcpy_eq_take _ _ _ (le_of_eq hbuf), ← hlen, List.take_length]
  have hnil : reply ≠ [] := by
    intro h
    rw [h] at hlen
    simp [IFNAMSIZ] at hlen
  refine ⟨by simp [socket_SIOCGIFNAME, hg], hstored, ?_, ?_, ?_⟩
  · rw [hstored]; exact hzm
  · rw [hstored]; exact cstrlen_pos reply hne hnil
  · rw [hstored]
    have := cstrlen_lt_length reply hzm
    omega

/-- C9 witness: a concrete successful resolution stores the name `"lo"`,
non-empty, zero-terminated, of length `2 ≤ IFNAMSIZ - 1`. -/
theorem C9_witness :
    (socket_SIOCGIFNAME kb0 3 2 (List.replicate IFNAMSIZ 0)).1 = 0 ∧
    (socket_SIOCGIFNAME kb0 3 2 (List.replicate IFNAMSIZ 0)).2.1 = nm0 :=
  by
  have h := C9_success_stores_valid_name kb0 3 2 (List.replicate IFNAMSIZ 0)
    nm0 (by decide) rfl (by refine ⟨by decide, by decide, by decide⟩)
  exact ⟨h.1, h.2.1⟩

/-- C10: in the namespace model of the kernel-side binding state, the
binder is idempotent — running it twice with the same ifindex ends in the
same binding state as running it once — and running it with `0` afterwards
leaves the socket in the unbound state of a freshly created socket. -/
theorem C10_idempotent_binding (ns : NetNS) (st : SockState) (s : Nat)
    (i : Int) :
    (socket_bind_if_st ns (socket_bind_if_st ns st s i).2 s i).2 =
      (socket_bind_if_st ns st s i).2 ∧
    (socket_bind_if_st ns (socket_bind_if_st ns st s i).2 s 0).2 =
      SockState.fresh := by
  refine ⟨?_, socket_bind_if_st_zero ns _ s⟩
  by_cases hneg : i < 0
  · simp [socket_bind_if_st, socket_bind_if_of_neg _ _ hneg]
  · by_cases hi : 0 < i
    · cases hns : ns.ifnames i.toNat with
      | some nm =>
        have hg : (nsBehavior ns).gifname s i.toNat = Except.ok nm := by
          simp [nsBehavior, hns]
        have heq := socket_bind_if_pos_ok_eq (nsBehavior ns) s hi hg
        simp only [socket_bind_if_st, heq]
        simp [KCall.applyToState, applySO_BINDTODEVICE]
      | none =>
        have hg : (nsBehavior ns).gifname s i.toNat = Except.error 19 := by
          simp [nsBehavior, hns]
        simp [socket_bind_if_st, socket_bind_if_pos_err_eq (nsBehavior ns) s
          hi (by decide) hg, KCall.applyToState]
    · have hz : i = 0 := by omega
      subst hz
      rw [socket_bind_if_st_zero ns st s, socket_bind_if_st_zero ns _ s]

end NDhcp4
